import Mathlib

/-!
Shallow embedding of the PyPulse shared-state layer (`pypulse_state.py`)
and the progress wrapper (`pypulse.py`).

Timestamps: the Python code stores ISO-8601 strings produced from
`datetime.now(timezone.utc)` and compares instants by subtraction of the
parsed values; here an instant is a natural number and subtraction is
integer subtraction.  The Python truthiness test `x or y` on an optional
value whose present form is never falsy (a non-empty ISO string) is
modelled by `Option.getD`.
-/

namespace PyPulse

/-- The progress document written by `PulseState.update_progress` /
`complete_task` / `clear_stale_progress` (`pypulse_state.py`): the JSON
object with keys `active`, `task_name`, `current_step`, `progress`,
`eta_seconds`, `started_at`, `last_update`, `error`, `pid`. -/
structure ProgressDoc where
  active : Bool
  task_name : Option String
  current_step : Option String
  progress : ℚ
  eta_seconds : Option ℤ
  started_at : Option ℕ
  last_update : Option ℕ
  error : Option String
  pid : Option ℤ
  deriving DecidableEq

/-- The inactive template written by `_ensure_files_exist` and by
`complete_task` (lines 128-138 of `pypulse_state.py`): all fields
cleared, `progress` 0.0, `active` false. -/
def inactiveDoc : ProgressDoc :=
  { active := false, task_name := none, current_step := none, progress := 0,
    eta_seconds := none, started_at := none, last_update := none,
    error := none, pid := none }

/-- One entry of `history.json`: `{task_name, completed_at, duration_seconds}`
as built in `complete_task`. -/
structure HistEntry where
  task_name : String
  completed_at : ℕ
  duration_seconds : Option ℤ
  deriving DecidableEq

/-- The two files the progress dynamics touch.  `none` models a file that
is missing, unreadable or malformed (the cases `_read_safe` turns into
`{}`); `some d` models a file holding the well-formed document `d`. -/
structure StoreState where
  progressFile : Option ProgressDoc
  historyFile : Option (List HistEntry)
  deriving DecidableEq

/-- The state after `_ensure_files_exist` on a fresh directory. -/
def initState : StoreState :=
  { progressFile := some inactiveDoc, historyFile := some [] }

/-- Result of `_read_safe`: either the parsed document or the empty dict
`{}` that the `except (json.JSONDecodeError, IOError)` branch returns. -/
inductive ReadResult (α : Type) where
  | doc : α → ReadResult α
  | emptyDict : ReadResult α
  deriving DecidableEq

/-- `PulseState._read_safe` (lines 65-73): returns the parsed content, or
`{}` when the file is missing, unreadable or malformed. -/
def read_safe {α : Type} (file : Option α) : ReadResult α :=
  match file with
  | some d => ReadResult.doc d
  | none => ReadResult.emptyDict

/-- `PulseState.get_progress` (lines 140-142): `_read_safe(PROGRESS_FILE)`. -/
def get_progress (s : StoreState) : ReadResult ProgressDoc :=
  read_safe s.progressFile

/-- `PulseState.get_history` (lines 144-146): `_read_safe(HISTORY_FILE)`. -/
def get_history (s : StoreState) : ReadResult (List HistEntry) :=
  read_safe s.historyFile

/-- The widget-position document `{x, y}`. -/
structure WidgetPos where
  x : ℤ
  y : ℤ
  deriving DecidableEq

/-- `PulseState.get_widget_position` (lines 152-155): reads the file and
substitutes the default 100 for each missing coordinate, so a missing or
corrupt file (read as `{}`) yields `{x: 100, y: 100}`. -/
def get_widget_position (file : Option WidgetPos) : WidgetPos :=
  match file with
  | some p => p
  | none => { x := 100, y := 100 }

/-- `pid or os.getpid()` in `update_progress` line 103: a `None` or `0`
(falsy) argument is replaced by the current process id. -/
def pyOrPid (pid : Option ℤ) (curPid : ℤ) : ℤ :=
  match pid with
  | some p => if p = 0 then curPid else p
  | none => none.getD curPid

/-- `PulseState._get_started_at` (lines 157-160): `started_at` of the
current progress file if it exists (`{}` from a bad read has no key, so
`.get` yields `None`). -/
def get_started_at (s : StoreState) : Option ℕ :=
  match s.progressFile with
  | some d => d.started_at
  | none => none

/-- `PulseState.update_progress` (lines 84-106): writes the whole record;
`progress` clamped into [0,1], `started_at` kept from the current file when
present (`self._get_started_at() or now`), else stamped `now`;
`last_update` always `now`; `error` and `eta_seconds` taken verbatim from
the arguments. -/
def update_progress (now : ℕ) (curPid : ℤ) (task_name current_step : String)
    (progress : ℚ) (eta_seconds : Option ℤ) (error : Option String)
    (pid : Option ℤ) (s : StoreState) : StoreState :=
  { s with progressFile := some (
    { active := true
      task_name := some task_name
      current_step := some current_step
      progress := max 0 (min 1 progress)
      eta_seconds := eta_seconds
      started_at := some ((get_started_at s).getD now)
      last_update := some now
      error := error
      pid := some (pyOrPid pid curPid) } : ProgressDoc) }

/-- `PulseState._calculate_duration` (lines 162-170): seconds between the
current file's `started_at` (when present) and now. -/
def calculate_duration (now : ℕ) (s : StoreState) : Option ℤ :=
  match get_started_at s with
  | some st => some ((now : ℤ) - st)
  | none => none

/-- `PulseState.complete_task` (lines 108-138): builds a history entry
from the argument name, prepends it (`insert(0, ...)`), truncates to the
10 newest (`[:10]`), then resets the progress file to the inactive
template.  When the history file reads as `{}` the subscript
`history["completed_tasks"]` raises `KeyError`, modelled as `none`. -/
def complete_task (now : ℕ) (task_name : String) (s : StoreState) :
    Option StoreState :=
  match s.historyFile with
  | none => none
  | some hist =>
    some { progressFile := some inactiveDoc
           historyFile := some
             (({ task_name := task_name, completed_at := now,
                 duration_seconds := calculate_duration now s } :: hist).take 10) }

/-- `clear_stale_progress` (lines 175-197): when the current record is
active, has a `last_update`, and has been idle longer than
`max_idle_seconds`, rewrite it inactive while preserving `task_name`,
`current_step`, `progress` and `error`; otherwise leave the store alone. -/
def clear_stale_progress (now : ℕ) (max_idle_seconds : ℤ) (s : StoreState) :
    StoreState :=
  match s.progressFile with
  | none => s
  | some d =>
    if d.active then
      match d.last_update with
      | none => s
      | some lu =>
        if (now : ℤ) - lu > max_idle_seconds then
          { s with progressFile := some (
            { active := false, task_name := d.task_name,
              current_step := d.current_step, progress := d.progress,
              eta_seconds := none, started_at := none, last_update := none,
              error := d.error, pid := none } : ProgressDoc) }
        else s
    else s

/-- One possible on-disk content of a file while `_write_safe`
(lines 75-82) is running, as seen by a concurrent reader of that path:
`open(filepath, 'w')` truncates the target in place, then `json.dump`
fills it, so the observable sequence is old content, truncated file,
new content. -/
def writeSafeTrace (old new : String) : List String :=
  [old, "", new]

/-- How `_write_safe` reaches the target path. -/
inductive WriteStrategy where
  | inPlace : WriteStrategy
  | tempThenRename : WriteStrategy
  deriving DecidableEq

/-- `_write_safe` opens the destination path itself with mode `'w'`
(line 79); there is no temporary file and no rename. -/
def writeSafeStrategy : WriteStrategy :=
  WriteStrategy.inPlace

/-! ## The wrapper layer (`pypulse.py`)

Calls into the shared store are reified as events so that "how many
times was `complete_task` invoked" is a statement about a list.
Wall-clock instants seen by the wrapper (`time.time()`) are rationals.
-/

/-- A call the wrapper makes on `pulse_state`: `update` carries
(task_name, current_step, progress, eta_seconds, error); `complete`
carries the task name. -/
inductive StoreCall where
  | update : String → String → ℚ → Option ℤ → Option String → StoreCall
  | complete : String → StoreCall
  deriving DecidableEq

/-- Number of `complete_task` invocations in a list of store calls. -/
def countComplete (evs : List StoreCall) : ℕ :=
  (evs.filter fun e =>
    match e with
    | StoreCall.complete _ => true
    | StoreCall.update _ _ _ _ _ => false).length

/-- The mutable fields of a `PulseProgress` object that the modelled
methods read or write.  `stepLabel` is `self.step`, `n` the item counter
(`self.n`), `start_t` / `last_update_t` the recorded instants. -/
structure PPState where
  disable : Bool
  desc : String
  stepLabel : String
  total : Option ℤ
  unit : String
  leave : Bool
  mininterval : ℚ
  n : ℤ
  start_t : ℚ
  last_update_t : ℚ
  deriving DecidableEq

/-- `self.total or '?'` in `_report_progress` line 134: `None` and `0`
are both falsy and render as `?`. -/
def pyTotalStr (total : Option ℤ) : String :=
  match total with
  | some t => if t = 0 then "?" else toString t
  | none => "?"

/-- The `current_step` string built in `_report_progress` line 134. -/
def currentStepStr (s : PPState) : String :=
  s.stepLabel ++ ": " ++ toString s.n ++ "/" ++ pyTotalStr s.total ++ s.unit

/-- Python `int()` on a rational: truncation toward zero. -/
def ratTrunc (q : ℚ) : ℤ :=
  if 0 ≤ q then ⌊q⌋ else ⌈q⌉

/-- `PulseProgress._calculate_eta` (lines 143-154): absent when `total`
is falsy (`None` or 0) or the counter is ≤ 0; `speed = n/elapsed` when
`elapsed > 0` else 0; when `speed > 0` the result is
`int((total - n) / speed)`. -/
def calculate_eta (s : PPState) (now : ℚ) : Option ℤ :=
  match s.total with
  | none => none
  | some tot =>
    if tot = 0 ∨ s.n ≤ 0 then none
    else
      if (if now - s.start_t > 0 then (s.n : ℚ) / (now - s.start_t) else 0) > 0 then
        some (ratTrunc (((tot - s.n : ℤ) : ℚ) /
          (if now - s.start_t > 0 then (s.n : ℚ) / (now - s.start_t) else 0)))
      else none

/-- `PulseProgress._report_progress` (lines 120-141): no-op when
disabled; `progress = n/total` and an ETA when `total` is truthy, else
progress 0 and no ETA; emits one `update_progress` call. -/
def report_progress (now : ℚ) (s : PPState) : List StoreCall :=
  if s.disable then []
  else
    match s.total with
    | some t =>
      if t = 0 then [StoreCall.update s.desc (currentStepStr s) 0 none none]
      else [StoreCall.update s.desc (currentStepStr s) ((s.n : ℚ) / t)
              (calculate_eta s now) none]
    | none => [StoreCall.update s.desc (currentStepStr s) 0 none none]

/-- `PulseProgress.update` (lines 97-108): no-op when disabled; always
adds `k` to the counter; reports (and moves `last_update_t`) only when
`now - last_update_t ≥ mininterval`. -/
def ppUpdate (now : ℚ) (k : ℤ) (s : PPState) : PPState × List StoreCall :=
  if s.disable then (s, [])
  else
    if now - s.last_update_t ≥ s.mininterval then
      ({ s with n := s.n + k, last_update_t := now },
       report_progress now { s with n := s.n + k })
    else ({ s with n := s.n + k }, [])

/-- `PulseProgress.close` (lines 110-118): calls `complete_task(desc)`
whenever the tracker is enabled and the counter is positive; there is no
closed flag, and the tracker state is unchanged. -/
def ppClose (s : PPState) : List StoreCall :=
  if s.disable = false ∧ 0 < s.n then [StoreCall.complete s.desc] else []

/-- `PulseProgress.__init__` (lines 22-77) restricted to the modelled
fields: sets the counters from `initial` and the clocks from the
construction instant, and emits one initial `_report_progress` unless
disabled. -/
def ppInit (disable : Bool) (desc stepLabel : String) (total : Option ℤ)
    (mininterval : ℚ) (initialN : ℤ) (t0 : ℚ) : PPState × List StoreCall :=
  let s : PPState :=
    { disable := disable, desc := desc, stepLabel := stepLabel, total := total,
      unit := "it", leave := true, mininterval := mininterval, n := initialN,
      start_t := t0, last_update_t := t0 }
  (s, if disable then [] else report_progress t0 s)

/-- The loop body of `PulseProgress.__iter__` (lines 84-87): yield each
element, then `update(1)` — the instant of the i-th `update` call is the
i-th element of `ts`. -/
def ppIterLoop {α : Type} (s : PPState) (xs : List α) (ts : List ℚ) :
    List α × PPState × List StoreCall :=
  match xs with
  | [] => ([], s, [])
  | x :: rest =>
    let p := ppUpdate ((ts.head?).getD s.last_update_t) 1 s
    let q := ppIterLoop p.1 rest ts.tail
    (x :: q.1, q.2.1, p.2 ++ q.2.2)

/-- `PulseProgress.__iter__` (lines 79-89).  The method body contains
`yield`, so it is a generator function; in the disabled branch its
`return iter(self.iterable)` merely terminates the generator (the value
rides on `StopIteration` and is discarded by a `for` loop), so a
disabled wrapper yields zero items, makes no updates and never reaches
the `finally` close.  Enabled, it runs the yield/update loop and calls
`close()` in the `finally`. -/
def ppIter {α : Type} (s : PPState) (xs : List α) (ts : List ℚ) :
    List α × PPState × List StoreCall :=
  if s.disable then ([], s, [])
  else
    let r := ppIterLoop s xs ts
    (r.1, r.2.1, r.2.2 ++ ppClose r.2.1)

/-- The mutable fields of a `PulseTask` object. -/
structure PTState where
  task_name : String
  total_steps : ℤ
  current_step : ℤ
  start_time : Option ℚ
  closed : Bool
  deriving DecidableEq

/-- `PulseTask.__init__` (lines 188-200). -/
def ptInit (name : String) (total_steps : ℤ) : PTState :=
  { task_name := name, total_steps := total_steps, current_step := 0,
    start_time := none, closed := false }

/-- `PulseTask.__enter__` (lines 202-209): records the start instant and
publishes a `Starting...` record at progress 0. -/
def ptEnter (now : ℚ) (s : PTState) : PTState × List StoreCall :=
  ({ s with start_time := some now },
   [StoreCall.update s.task_name "Starting..." 0 none none])

/-- The default step label `"Step {step}/{total}: {description}"`
formatted in `PulseTask.step` lines 233-237. -/
def stepText (s : PTState) (desc : String) : String :=
  "Step " ++ toString s.current_step ++ "/" ++ toString s.total_steps ++
    ": " ++ desc

/-- `PulseTask.step` (lines 223-243): no-op once closed; increments the
step counter; derives progress as `current_step/total_steps` (0 when
`total_steps ≤ 0`) unless given; publishes one update. -/
def ptStep (desc : String) (progressArg : Option ℚ) (s : PTState) :
    PTState × List StoreCall :=
  if s.closed then (s, [])
  else
    let s1 : PTState := { s with current_step := s.current_step + 1 }
    (s1, [StoreCall.update s1.task_name (stepText s1 desc)
      (progressArg.getD
        (if 0 < s1.total_steps then (s1.current_step : ℚ) / s1.total_steps else 0))
      none none])

/-- `PulseTask.close` (lines 258-262): only when not yet closed and the
session was entered (`start_time` set) does it mark closed and call
`complete_task`. -/
def ptClose (s : PTState) : PTState × List StoreCall :=
  if s.closed = false ∧ s.start_time.isSome then
    ({ s with closed := true }, [StoreCall.complete s.task_name])
  else (s, [])

/-- `PulseTask.__exit__` (lines 211-221): always `close()` first; then,
when an exception escapes the scope, publish an error record
`"{kind}: {message}"` at the current step ratio. -/
def ptExit (exc : Option (String × String)) (s : PTState) :
    PTState × List StoreCall :=
  let c := ptClose s
  match exc with
  | none => c
  | some km =>
    (c.1, c.2 ++ [StoreCall.update s.task_name "Error occurred"
      (if 0 < s.total_steps then (s.current_step : ℚ) / s.total_steps else 0)
      none (some (km.1 ++ ": " ++ km.2))])

/-- Interpretation of one reified call on the store; the `update` calls
made by the wrapper never pass `pid`, so it is `None`. -/
def applyCall (now : ℕ) (curPid : ℤ) (c : StoreCall) (s : StoreState) :
    Option StoreState :=
  match c with
  | StoreCall.update tn cs p eta err =>
    some (update_progress now curPid tn cs p eta err none s)
  | StoreCall.complete tn => complete_task now tn s

/-- Run a list of store calls, the i-th at instant `times[i]`. -/
def runCalls (times : List ℕ) (curPid : ℤ) (calls : List StoreCall)
    (s : StoreState) : Option StoreState :=
  match calls with
  | [] => some s
  | c :: rest =>
    (applyCall (times.headD 0) curPid c s).bind (runCalls times.tail curPid rest)

/-- The C1 scenario: a session with `total_steps = 2` is entered, makes
one `step`, then its scope exits via an escaping exception `kind: msg`;
the four resulting store calls run at instants `t1, t2, t3, t3`. -/
def sessionFailScenario (name desc kind msg : String) (t1 t2 t3 : ℕ)
    (curPid : ℤ) (s : StoreState) : Option StoreState :=
  let e1 := ptEnter 0 (ptInit name 2)
  let e2 := ptStep desc none e1.1
  let e3 := ptExit (some (kind, msg)) e2.1
  runCalls [t1, t2, t3, t3] curPid (e1.2 ++ e2.2 ++ e3.2) s

/-- `complete_task` applied in sequence, the i-th at `pairs[i].1` with
task name `pairs[i].2`. -/
def completeMany (pairs : List (ℕ × String)) (s : StoreState) :
    Option StoreState :=
  match pairs with
  | [] => some s
  | p :: rest => (complete_task p.1 p.2 s).bind (completeMany rest)

/-! ## Theorems -/

/-- C2 counterexample: after `update_progress` records the error `"E"`,
a further `update_progress` whose error argument is absent resets the
persisted `error` field to null — it is not left unchanged. -/
theorem C2_counterexample :
    (update_progress 1 42 "T" "s" (1/2) none (some "E") none
      initState).progressFile.map (fun d => d.error) = some (some "E") ∧
    (update_progress 2 42 "T" "s2" (3/4) none none none
      (update_progress 1 42 "T" "s" (1/2) none (some "E") none
        initState)).progressFile.map (fun d => d.error) = some none := by
  constructor <;> rfl

/-- C2 (amended): `update_progress` writes the error field verbatim from
its argument, so a call with an absent error nulls out a previously
recorded error; `complete_task` also resets it to null as part of the
inactive template. -/
theorem C2_error_overwritten_by_nil (s : StoreState) (e : String)
    (now : ℕ) (c : ℤ) (tn cs : String) (p : ℚ) (eta : Option ℤ)
    (pd : Option ℤ) (t2 : ℕ) (tn2 : String) (s2 : StoreState)
    (_herr : s.progressFile.map (fun d => d.error) = some (some e))
    (hc : complete_task t2 tn2 s = some s2) :
    (update_progress now c tn cs p eta none pd s).progressFile.map
      (fun d => d.error) = some none ∧
    s2.progressFile.map (fun d => d.error) = some none := by
  constructor
  · simp [update_progress]
  · cases hh : s.historyFile with
    | none => rw [complete_task, hh] at hc; exact absurd hc (by simp)
    | some hist =>
      rw [complete_task, hh] at hc
      cases hc
      simp [inactiveDoc]

/-- C2 witness. -/
theorem C2_error_overwritten_by_nil_witness :
    (update_progress 2 42 "T" "s2" (3/4) none none none
      (update_progress 1 42 "T" "s" (1/2) none (some "E") none
        initState)).progressFile.map (fun d => d.error) = some none ∧
    ({ progressFile := some inactiveDoc,
       historyFile := some [⟨"U", 5, some 4⟩] } : StoreState).progressFile.map
      (fun d => d.error) = some none :=
  C2_error_overwritten_by_nil
    (update_progress 1 42 "T" "s" (1/2) none (some "E") none initState)
    "E" 2 42 "T" "s2" (3/4) none none 5 "U" _ (by rfl) (by rfl)

/-- C3 counterexample: the store writes in place (no temp file, no
rename), and a concurrent reader of a write from content `"a"` to
content `"b"` can observe the truncated file, which is neither the old
nor the new complete document. -/
theorem C3_counterexample :
    writeSafeStrategy = WriteStrategy.inPlace ∧
    "" ∈ writeSafeTrace "a" "b" ∧ ¬("" = "a" ∨ "" = "b") := by
  refine ⟨rfl, ?_, by decide⟩
  simp [writeSafeTrace]

/-- C3 (amended): `_write_safe` performs a direct in-place write — it
truncates the destination and then writes the new content — so the final
observable content is the new document, but the truncated (empty) state
is also observable mid-write; there is no write-to-temp-then-rename. -/
theorem C3_write_is_in_place (old new : String) :
    writeSafeStrategy = WriteStrategy.inPlace ∧
    writeSafeStrategy ≠ WriteStrategy.tempThenRename ∧
    (writeSafeTrace old new).getLast? = some new ∧
    "" ∈ writeSafeTrace old new := by
  refine ⟨rfl, by decide, rfl, ?_⟩
  simp [writeSafeTrace]

/-- C4 counterexample: with the backing files missing or corrupt,
`get_progress` and `get_history` return the raw empty dictionary, which
is not the structurally valid "nothing active" document nor the
structurally valid empty-history document. -/
theorem C4_counterexample :
    get_progress { progressFile := none, historyFile := none } =
      ReadResult.emptyDict ∧
    get_progress { progressFile := none, historyFile := none } ≠
      ReadResult.doc inactiveDoc ∧
    get_history { progressFile := none, historyFile := none } =
      ReadResult.emptyDict ∧
    get_history { progressFile := none, historyFile := none } ≠
      ReadResult.doc [] := by
  refine ⟨rfl, by decide, rfl, by decide⟩

/-- C4 (amended): no getter propagates a read failure — each returns a
value.  `get_widget_position` does substitute the structurally valid
default position, but `get_progress` and `get_history` degrade to the
empty dictionary `{}` rather than to fully populated default documents. -/
theorem C4_getters_degrade (s : StoreState) (p : WidgetPos)
    (hp : s.progressFile = none) (hh : s.historyFile = none) :
    get_progress s = ReadResult.emptyDict ∧
    get_history s = ReadResult.emptyDict ∧
    get_widget_position none = { x := 100, y := 100 } ∧
    get_widget_position (some p) = p := by
  exact ⟨by simp [get_progress, read_safe, hp], by simp [get_history, read_safe, hh], rfl, rfl⟩

/-- C4 witness. -/
theorem C4_getters_degrade_witness :
    get_progress { progressFile := none, historyFile := none } =
      ReadResult.emptyDict ∧
    get_history { progressFile := none, historyFile := none } =
      ReadResult.emptyDict ∧
    get_widget_position none = { x := 100, y := 100 } ∧
    get_widget_position (some { x := 3, y := 4 }) = { x := 3, y := 4 } :=
  C4_getters_degrade { progressFile := none, historyFile := none }
    { x := 3, y := 4 } rfl rfl

/-- C5 counterexample: after `update_progress` for task `"A"` at instant
1, an `update_progress` for the different task `"B"` at instant 2 —
a task for which no record is active — still inherits `started_at = 1`
instead of being stamped with the current instant 2. -/
theorem C5_counterexample :
    (update_progress 1 9 "A" "s" 0 none none none
      initState).progressFile.map (fun d => d.task_name) = some (some "A") ∧
    get_started_at (update_progress 2 9 "B" "s" 0 none none none
      (update_progress 1 9 "A" "s" 0 none none none initState)) = some 1 ∧
    (1 : ℕ) ≠ 2 := by
  refine ⟨rfl, rfl, by decide⟩

/-- C5 (amended): `update_progress` stamps `started_at = now` exactly
when the current document's `started_at` is null, and otherwise keeps
the stored value — regardless of whether the stored record belongs to
the same task.  `last_update` is always stamped `now`.  In particular
two consecutive updates (same task name or not) yield identical
`started_at`. -/
theorem C5_started_at_stability (s : StoreState)
    (n1 n2 : ℕ) (c1 c2 : ℤ) (tn1 tn2 cs1 cs2 : String) (p1 p2 : ℚ)
    (e1 e2 : Option ℤ) (er1 er2 : Option String) (pd1 pd2 : Option ℤ)
    (hnone : get_started_at s = none) :
    get_started_at (update_progress n1 c1 tn1 cs1 p1 e1 er1 pd1 s) = some n1 ∧
    (update_progress n1 c1 tn1 cs1 p1 e1 er1 pd1 s).progressFile.map
      (fun d => d.last_update) = some (some n1) ∧
    get_started_at (update_progress n2 c2 tn2 cs2 p2 e2 er2 pd2
      (update_progress n1 c1 tn1 cs1 p1 e1 er1 pd1 s)) = some n1 := by
  obtain ⟨pf, hf⟩ := s
  cases pf with
  | none => refine ⟨?_, by simp [update_progress], ?_⟩ <;>
      simp [update_progress, get_started_at]
  | some d =>
    have hd : d.started_at = none := by
      simpa [get_started_at] using hnone
    refine ⟨?_, by simp [update_progress], ?_⟩ <;>
      simp [update_progress, get_started_at, hd]

/-- C1 counterexample: a session with two steps that performs one step
and then exits via an escaping exception leaves the progress document
with the expected error string and progress 1/2, but with
`active = true` — not the inactive value written by `complete_task`
(the error update republishes the record as active). -/
theorem C1_counterexample :
    (sessionFailScenario "T" "load" "ValueError" "boom" 1 2 3 7
      initState).map (fun s => s.progressFile.map (fun d => d.active)) =
      some (some true) ∧
    inactiveDoc.active = false ∧
    (sessionFailScenario "T" "load" "ValueError" "boom" 1 2 3 7
      initState).map (fun s => s.progressFile.map
        (fun d => (d.error, d.progress))) =
      some (some (some "ValueError: boom", 1/2)) := by
  refine ⟨rfl, rfl, ?_⟩
  simp [sessionFailScenario, ptInit, ptEnter, ptStep, ptExit, ptClose,
    stepText, runCalls, applyCall, update_progress, complete_task,
    calculate_duration, get_started_at, inactiveDoc, pyOrPid, initState]
  norm_num [max_def, min_def]

/-- C1 (amended): after one step of two and an escaping exception, the
progress document holds `error = "kind: msg"` and `progress = 1/2`, but
is republished with `active = true` and fresh `started_at`/`last_update`
stamps: `__exit__` first runs the normal close (whose `complete_task`
writes the inactive template and archives the task) and then overwrites
the progress file with an active error record. -/
theorem C1_session_error_exit (name desc kind msg : String)
    (t1 t2 t3 : ℕ) (c : ℤ) (s : StoreState) (h : List HistEntry)
    (hp : s.progressFile = some inactiveDoc) (hh : s.historyFile = some h) :
    sessionFailScenario name desc kind msg t1 t2 t3 c s =
      some { progressFile := some (
               { active := true, task_name := some name,
                 current_step := some "Error occurred", progress := 1/2,
                 eta_seconds := none, started_at := some t3,
                 last_update := some t3,
                 error := some (kind ++ ": " ++ msg),
                 pid := some c } : ProgressDoc),
             historyFile := some
               (((⟨name, t3, some ((t3 : ℤ) - t1)⟩ : HistEntry) :: h).take 10) } := by
  obtain ⟨pf, hf⟩ := s
  simp only [Option.some.injEq] at hp hh
  subst hp; subst hh
  simp [sessionFailScenario, ptInit, ptEnter, ptStep, ptExit, ptClose,
    stepText, runCalls, applyCall, update_progress, complete_task,
    calculate_duration, get_started_at, inactiveDoc, pyOrPid]
  norm_num [max_def, min_def]

/-- C1 witness. -/
theorem C1_session_error_exit_witness :
    sessionFailScenario "T" "load" "ValueError" "boom" 1 2 3 7 initState =
      some { progressFile := some (
               { active := true, task_name := some "T",
                 current_step := some "Error occurred", progress := 1/2,
                 eta_seconds := none, started_at := some 3,
                 last_update := some 3,
                 error := some ("ValueError" ++ ": " ++ "boom"),
                 pid := some 7 } : ProgressDoc),
             historyFile := some
               ((((⟨"T", 3, some ((3 : ℤ) - 1)⟩ : HistEntry)) :: []).take 10) } :=
  C1_session_error_exit "T" "load" "ValueError" "boom" 1 2 3 7
    initState [] rfl rfl

/-- C5 witness. -/
theorem C5_started_at_stability_witness :
    get_started_at (update_progress 1 9 "A" "s" 0 none none none
      initState) = some 1 ∧
    (update_progress 1 9 "A" "s" 0 none none none
      initState).progressFile.map (fun d => d.last_update) = some (some 1) ∧
    get_started_at (update_progress 2 9 "B" "s" 0 none none none
      (update_progress 1 9 "A" "s" 0 none none none initState)) = some 1 :=
  C5_started_at_stability initState 1 2 9 9 "A" "B" "s" "s" 0 0
    none none none none none none rfl

/-- A concrete enabled tracker state with one counted item, used as the
C6 scenario. -/
def exTracker : PPState :=
  { disable := false, desc := "T", stepLabel := "1/1", total := none,
    unit := "it", leave := true, mininterval := 1/10, n := 1,
    start_t := 0, last_update_t := 0 }

/-- C6 counterexample: `PulseProgress.close` has no closed flag — two
`close()` invocations on an enabled tracker with a positive counter call
`complete_task` twice, not exactly once. -/
theorem C6_counterexample :
    ppClose exTracker ++ ppClose exTracker =
      [StoreCall.complete "T", StoreCall.complete "T"] ∧
    countComplete (ppClose exTracker ++ ppClose exTracker) = 2 ∧
    (2 : ℕ) ≠ 1 := by
  refine ⟨rfl, rfl, by decide⟩

/-- C6 (amended): `PulseTask.close` is idempotent — it marks the session
closed and emits `complete_task` exactly once, and a further `close` (or
a scope exit after it) emits nothing; `PulseProgress.close`, however,
has no closed flag and calls `complete_task` on every invocation for
which the tracker is enabled and the counter is positive. -/
theorem C6_close_semantics (pt : PTState) (t : ℚ) (pp : PPState)
    (h1 : pt.closed = false) (h2 : pt.start_time = some t)
    (h3 : pp.disable = false) (h4 : 0 < pp.n) :
    (ptClose pt).2 = [StoreCall.complete pt.task_name] ∧
    (ptClose pt).1.closed = true ∧
    (ptClose (ptClose pt).1).2 = [] ∧
    (ptExit none (ptClose pt).1).2 = [] ∧
    ppClose pp = [StoreCall.complete pp.desc] := by
  have hc : (ptClose pt) =
      ({ pt with closed := true }, [StoreCall.complete pt.task_name]) := by
    simp [ptClose, h1, h2]
  refine ⟨by rw [hc], by rw [hc], ?_, ?_, ?_⟩
  · rw [hc]; simp [ptClose]
  · rw [hc]; simp [ptExit, ptClose]
  · simp [ppClose, h3, h4]

/-- C6 witness. -/
theorem C6_close_semantics_witness :
    (ptClose { ptInit "S" 2 with start_time := some 0 }).2 =
      [StoreCall.complete ({ ptInit "S" 2 with
        start_time := some (0 : ℚ) } : PTState).task_name] ∧
    (ptClose { ptInit "S" 2 with start_time := some (0 : ℚ) }).1.closed = true ∧
    (ptClose (ptClose { ptInit "S" 2 with
      start_time := some (0 : ℚ) }).1).2 = [] ∧
    (ptExit none (ptClose { ptInit "S" 2 with
      start_time := some (0 : ℚ) }).1).2 = [] ∧
    ppClose exTracker = [StoreCall.complete exTracker.desc] :=
  C6_close_semantics { ptInit "S" 2 with start_time := some 0 } 0 exTracker
    rfl rfl rfl (by decide)

/-- C10 (confirmed): one reaper tick on an active record idle longer
than the threshold rewrites it inactive with `eta_seconds`, `started_at`
and `last_update` cleared while `task_name`, `current_step`, `progress`
and `error` keep their values; a second tick is a no-op on the result;
an inactive record, and an active record whose idle time does not exceed
the threshold, are left untouched. -/
theorem C10_reaper_tick
    (s : StoreState) (d : ProgressDoc) (lu : ℕ) (now : ℕ) (thr : ℤ)
    (now2 : ℕ) (thr2 : ℤ)
    (s2 : StoreState) (d2 : ProgressDoc) (now3 : ℕ) (thr3 : ℤ)
    (s3 : StoreState) (d3 : ProgressDoc) (lu3 : ℕ) (now4 : ℕ) (thr4 : ℤ)
    (hp : s.progressFile = some d) (ha : d.active = true)
    (hl : d.last_update = some lu) (hstale : (now : ℤ) - lu > thr)
    (hp2 : s2.progressFile = some d2) (ha2 : d2.active = false)
    (hp3 : s3.progressFile = some d3) (hl3 : d3.last_update = some lu3)
    (hfresh : (now4 : ℤ) - lu3 ≤ thr4) :
    clear_stale_progress now thr s =
      { s with progressFile := some (
          { active := false, task_name := d.task_name,
            current_step := d.current_step, progress := d.progress,
            eta_seconds := none, started_at := none, last_update := none,
            error := d.error, pid := none } : ProgressDoc) } ∧
    clear_stale_progress now2 thr2 (clear_stale_progress now thr s) =
      clear_stale_progress now thr s ∧
    clear_stale_progress now3 thr3 s2 = s2 ∧
    clear_stale_progress now4 thr4 s3 = s3 := by
  have htick : clear_stale_progress now thr s =
      { s with progressFile := some (
          { active := false, task_name := d.task_name,
            current_step := d.current_step, progress := d.progress,
            eta_seconds := none, started_at := none, last_update := none,
            error := d.error, pid := none } : ProgressDoc) } := by
    obtain ⟨pf, hf⟩ := s
    simp only at hp
    subst hp
    simp [clear_stale_progress, ha, hl, hstale]
  refine ⟨htick, ?_, ?_, ?_⟩
  · rw [htick]; simp [clear_stale_progress]
  · obtain ⟨pf2, hf2⟩ := s2
    simp only at hp2
    subst hp2
    simp [clear_stale_progress, ha2]
  · obtain ⟨pf3, hf3⟩ := s3
    simp only at hp3
    subst hp3
    cases hact : d3.active with
    | false => simp [clear_stale_progress, hact]
    | true => simp [clear_stale_progress, hact, hl3, not_lt.mpr hfresh]

/-- A concrete stale active record for the C10 witness. -/
def exStaleDoc : ProgressDoc :=
  { active := true, task_name := some "T", current_step := some "load",
    progress := 1/2, eta_seconds := some 5, started_at := some 1,
    last_update := some 10, error := some "E", pid := some 9 }

/-- A concrete inactive record for the C10 witness. -/
def exIdleDoc : ProgressDoc :=
  { active := false, task_name := some "U", current_step := none,
    progress := 0, eta_seconds := none, started_at := none,
    last_update := some 10, error := none, pid := none }

/-- C10 witness. -/
theorem C10_reaper_tick_witness :
    clear_stale_progress 400 300 ⟨some exStaleDoc, some []⟩ =
      { (⟨some exStaleDoc, some []⟩ : StoreState) with progressFile := some (
          { active := false, task_name := exStaleDoc.task_name,
            current_step := exStaleDoc.current_step,
            progress := exStaleDoc.progress,
            eta_seconds := none, started_at := none, last_update := none,
            error := exStaleDoc.error, pid := none } : ProgressDoc) } ∧
    clear_stale_progress 500 300
        (clear_stale_progress 400 300 ⟨some exStaleDoc, some []⟩) =
      clear_stale_progress 400 300 ⟨some exStaleDoc, some []⟩ ∧
    clear_stale_progress 400 300 ⟨some exIdleDoc, some []⟩ =
      ⟨some exIdleDoc, some []⟩ ∧
    clear_stale_progress 11 300 ⟨some exStaleDoc, some []⟩ =
      ⟨some exStaleDoc, some []⟩ :=
  C10_reaper_tick ⟨some exStaleDoc, some []⟩ exStaleDoc 10 400 300 500 300
    ⟨some exIdleDoc, some []⟩ exIdleDoc 400 300
    ⟨some exStaleDoc, some []⟩ exStaleDoc 10 11 300
    rfl rfl rfl (by decide) rfl rfl rfl rfl (by decide)

lemma countComplete_append (a b : List StoreCall) :
    countComplete (a ++ b) = countComplete a + countComplete b := by
  simp [countComplete, List.filter_append]

lemma countComplete_report (now : ℚ) (s : PPState) :
    countComplete (report_progress now s) = 0 := by
  rw [report_progress]
  split
  · rfl
  · cases htot : s.total with
    | none => rfl
    | some t =>
      by_cases h0 : t = 0 <;> simp [h0, countComplete]

lemma countComplete_ppUpdate (now : ℚ) (k : ℤ) (s : PPState) :
    countComplete (ppUpdate now k s).2 = 0 := by
  rw [ppUpdate]
  split
  · rfl
  · split
    · simpa using countComplete_report now { s with n := s.n + k }
    · rfl

lemma ppUpdate_disable (now : ℚ) (k : ℤ) (s : PPState) :
    (ppUpdate now k s).1.disable = s.disable := by
  rw [ppUpdate]
  split
  · rfl
  · split <;> rfl

lemma ppUpdate_n (now : ℚ) (k : ℤ) (s : PPState) (h : s.disable = false) :
    (ppUpdate now k s).1.n = s.n + k := by
  rw [ppUpdate, if_neg (by simp [h])]
  split <;> rfl

lemma ppIterLoop_spec {α : Type} (xs : List α) :
    ∀ (s : PPState) (ts : List ℚ), s.disable = false →
      (ppIterLoop s xs ts).1 = xs ∧
      (ppIterLoop s xs ts).2.1.disable = false ∧
      (ppIterLoop s xs ts).2.1.n = s.n + xs.length ∧
      countComplete (ppIterLoop s xs ts).2.2 = 0 := by
  induction xs with
  | nil =>
    intro s ts h
    simp [ppIterLoop, h, countComplete]
  | cons x rest ih =>
    intro s ts h
    have hd : (ppUpdate ((ts.head?).getD s.last_update_t) 1 s).1.disable = false := by
      rw [ppUpdate_disable]; exact h
    obtain ⟨ih1, ih2, ih3, ih4⟩ :=
      ih (ppUpdate ((ts.head?).getD s.last_update_t) 1 s).1 ts.tail hd
    have hn := ppUpdate_n ((ts.head?).getD s.last_update_t) 1 s h
    refine ⟨?_, ?_, ?_, ?_⟩
    · simp only [ppIterLoop]
      exact congrArg (x :: ·) ih1
    · simpa only [ppIterLoop] using ih2
    · simp only [ppIterLoop]
      rw [ih3, hn]
      simp only [List.length_cons]
      push_cast
      ring
    · simp only [ppIterLoop]
      rw [countComplete_append, countComplete_ppUpdate, ih4]

/-- C7 counterexample: the claim fails twice over.  An enabled tracker
wrapped around the empty sequence (N = 0) triggers zero `complete_task`
calls, not exactly one; and a disabled wrapper around the one-element
sequence `[5]` yields zero items — not the same N items — because
`__iter__` is a generator function whose disabled-branch `return`
terminates it via `StopIteration`. -/
theorem C7_counterexample :
    (ppIter (ppInit false "T" "1/1" none (1/10) 0 0).1 ([] : List ℕ) []).1 =
      [] ∧
    countComplete
      (ppIter (ppInit false "T" "1/1" none (1/10) 0 0).1
        ([] : List ℕ) []).2.2 = 0 ∧
    (0 : ℕ) ≠ 1 ∧
    (ppIter { exTracker with disable := true } [5] []).1 = [] ∧
    ([] : List ℕ) ≠ [5] := by
  refine ⟨rfl, rfl, by decide, rfl, by decide⟩

/-- C7 (amended): iterating an enabled tracker started at counter 0
over a finite sequence yields exactly the original items in order and
triggers exactly one `complete_task` call when the sequence is
non-empty, but zero calls when it is empty (`close` skips
`complete_task` while the counter is 0); with `disable = true` the
wrapper yields zero items — `__iter__` is a generator function and its
disabled branch returns immediately — with zero store calls, and
construction, `update` and `close` of a disabled tracker also emit
nothing. -/
theorem C7_iteration_transparent {α : Type} (xs : List α) (ts : List ℚ)
    (s sd : PPState) (now : ℚ) (k : ℤ)
    (desc lbl : String) (tot : Option ℤ) (mi t0 : ℚ) (i : ℤ)
    (h1 : s.disable = false) (h2 : s.n = 0) (h3 : sd.disable = true) :
    (ppIter s xs ts).1 = xs ∧
    countComplete (ppIter s xs ts).2.2 =
      (if xs.length = 0 then 0 else 1) ∧
    ppIter sd xs ts = ([], sd, []) ∧
    ppUpdate now k sd = (sd, []) ∧
    ppClose sd = [] ∧
    (ppInit true desc lbl tot mi i t0).2 = [] := by
  obtain ⟨hy, hdis, hn, hcnt⟩ := ppIterLoop_spec xs s ts h1
  have hiter : ppIter s xs ts =
      ((ppIterLoop s xs ts).1, (ppIterLoop s xs ts).2.1,
        (ppIterLoop s xs ts).2.2 ++ ppClose (ppIterLoop s xs ts).2.1) := by
    rw [ppIter, if_neg (by simp [h1])]
  refine ⟨by rw [hiter]; exact hy, ?_, ?_, ?_, ?_, ?_⟩
  · rw [hiter]
    simp only [countComplete_append, hcnt, Nat.zero_add]
    rw [ppClose]
    by_cases hz : xs.length = 0
    · rw [if_pos hz, if_neg]
      · rfl
      · rintro ⟨hd2, hpos⟩
        rw [hn, h2, hz] at hpos
        simp at hpos
    · rw [if_neg hz, if_pos]
      · rfl
      · refine ⟨hdis, ?_⟩
        rw [hn, h2]
        have hlen : 0 < xs.length := Nat.pos_of_ne_zero hz
        omega
  · rw [ppIter, if_pos (by simp [h3])]
  · rw [ppUpdate, if_pos (by simp [h3])]
  · rw [ppClose, if_neg (by simp [h3])]
  · rw [ppInit]
    simp

/-- C7 witness. -/
theorem C7_iteration_transparent_witness :
    (ppIter (ppInit false "T" "1/1" (some 2) (1/10) 0 0).1
      [10, 20] [1, 2]).1 = [10, 20] ∧
    countComplete (ppIter (ppInit false "T" "1/1" (some 2) (1/10) 0 0).1
      [10, 20] [1, 2]).2.2 = (if [10, 20].length = 0 then 0 else 1) ∧
    ppIter { exTracker with disable := true } [10, 20] [1, 2] =
      ([], { exTracker with disable := true }, []) ∧
    ppUpdate 3 1 { exTracker with disable := true } =
      ({ exTracker with disable := true }, []) ∧
    ppClose { exTracker with disable := true } = [] ∧
    (ppInit true "T" "1/1" (some 2) (1/10) 0 0).2 = [] :=
  C7_iteration_transparent [10, 20] [1, 2]
    (ppInit false "T" "1/1" (some 2) (1/10) 0 0).1
    { exTracker with disable := true } 3 1 "T" "1/1" (some 2) (1/10) 0 0
    rfl rfl rfl

lemma take_prepend_take {α : Type} (a x : List α) :
    ∀ (m n : ℕ), m ≤ n → (a ++ x.take n).take m = (a ++ x).take m := by
  induction a with
  | nil =>
    intro m n hmn
    simp [List.take_take, Nat.min_eq_left hmn]
  | cons b a2 ih =>
    intro m n hmn
    cases m with
    | zero => simp
    | succ m2 =>
      simp only [List.cons_append, List.take_succ_cons]
      rw [ih m2 n (le_trans (Nat.le_succ m2) hmn)]

lemma completeMany_hist (pairs : List (ℕ × String)) :
    ∀ (s : StoreState) (h : List HistEntry), s.historyFile = some h →
      h.length ≤ 10 →
      ∃ s2 h2, completeMany pairs s = some s2 ∧ s2.historyFile = some h2 ∧
        h2.map (fun e => e.task_name) =
          ((pairs.map Prod.snd).reverse ++
            h.map (fun e => e.task_name)).take 10 ∧
        h2.length ≤ 10 := by
  induction pairs with
  | nil =>
    intro s h hh hlen
    refine ⟨s, h, rfl, hh, ?_, hlen⟩
    rw [List.map_nil, List.reverse_nil, List.nil_append,
      List.take_of_length_le (by simpa using hlen)]
  | cons p rest ih =>
    intro s h hh hlen
    have hstep : complete_task p.1 p.2 s =
        some { progressFile := some inactiveDoc,
               historyFile := some
                 (((⟨p.2, p.1, calculate_duration p.1 s⟩ : HistEntry) ::
                   h).take 10) } := by
      rw [complete_task, hh]
    have hlen2 : (((⟨p.2, p.1, calculate_duration p.1 s⟩ : HistEntry) ::
        h).take 10).length ≤ 10 := by
      exact List.length_take_le 10 _
    obtain ⟨s2, h2, hcm, hh2, hmap, hl2⟩ :=
      ih { progressFile := some inactiveDoc,
           historyFile := some
             (((⟨p.2, p.1, calculate_duration p.1 s⟩ : HistEntry) ::
               h).take 10) } _ rfl hlen2
    refine ⟨s2, h2, ?_, hh2, ?_, hl2⟩
    · rw [completeMany, hstep]
      exact hcm
    · rw [hmap, List.map_take, List.map_cons,
        take_prepend_take _ _ 10 10 le_rfl]
      simp [List.append_assoc]

/-- C8 (confirmed): `update_progress("T", ...)` followed by
`complete_task("T")` leaves the progress file equal to the fully
inactive template and the history with a newest-first entry for `"T"`;
each `complete_task` prepends exactly one entry and truncates to 10, so
the persisted history never exceeds 10 entries, and completing any
sequence of tasks (e.g. 12 distinct ones) leaves exactly the most
recently completed 10, newest first. -/
theorem C8_completion_and_history
    (s : StoreState) (h : List HistEntry) (t1 t2 : ℕ) (c : ℤ)
    (tn cs : String) (p : ℚ)
    (pairs : List (ℕ × String)) (s2 : StoreState) (h2 : List HistEntry)
    (hh : s.historyFile = some h) (hlen : h.length ≤ 10)
    (hcm : completeMany pairs s = some s2)
    (hh2 : s2.historyFile = some h2) :
    complete_task t2 tn (update_progress t1 c tn cs p none none none s) =
      some { progressFile := some inactiveDoc,
             historyFile := some
               (((⟨tn, t2, some ((t2 : ℤ) - (get_started_at s).getD t1)⟩ :
                 HistEntry) :: h).take 10) } ∧
    (((⟨tn, t2, some ((t2 : ℤ) - (get_started_at s).getD t1)⟩ :
        HistEntry) :: h).take 10).head?.map (fun e => e.task_name) =
      some tn ∧
    (((⟨tn, t2, some ((t2 : ℤ) - (get_started_at s).getD t1)⟩ :
        HistEntry) :: h).take 10).length ≤ 10 ∧
    h2.map (fun e => e.task_name) =
      ((pairs.map Prod.snd).reverse ++
        h.map (fun e => e.task_name)).take 10 ∧
    h2.length ≤ 10 := by
  obtain ⟨s3, h3, hcm3, hh3, hmap3, hl3⟩ := completeMany_hist pairs s h hh hlen
  rw [hcm3] at hcm
  cases hcm
  rw [hh3] at hh2
  cases hh2
  refine ⟨?_, ?_, List.length_take_le 10 _, hmap3, hl3⟩
  · rw [complete_task]
    have hhist : (update_progress t1 c tn cs p none none none s).historyFile =
        some h := by
      rw [update_progress]; exact hh
    rw [hhist]
    have hdur : calculate_duration t2
        (update_progress t1 c tn cs p none none none s) =
        some ((t2 : ℤ) - (get_started_at s).getD t1) := by
      rw [calculate_duration, get_started_at, update_progress]
    rw [hdur]
  · rw [show (10 : ℕ) = 9 + 1 from rfl, List.take_succ_cons]
    rfl

/-- Twelve distinct completion calls, used by the C8 witness. -/
def exTwelve : List (ℕ × String) :=
  [(1, "T1"), (2, "T2"), (3, "T3"), (4, "T4"), (5, "T5"), (6, "T6"),
   (7, "T7"), (8, "T8"), (9, "T9"), (10, "T10"), (11, "T11"), (12, "T12")]

/-- The history left by `exTwelve` from an empty store: the 10 newest,
newest first. -/
def exTwelveHist : List HistEntry :=
  [⟨"T12", 12, none⟩, ⟨"T11", 11, none⟩, ⟨"T10", 10, none⟩,
   ⟨"T9", 9, none⟩, ⟨"T8", 8, none⟩, ⟨"T7", 7, none⟩, ⟨"T6", 6, none⟩,
   ⟨"T5", 5, none⟩, ⟨"T4", 4, none⟩, ⟨"T3", 3, none⟩]

/-- C8 witness. -/
theorem C8_completion_and_history_witness :
    complete_task 2 "T" (update_progress 1 9 "T" "s" (1/2) none none none
      initState) =
      some { progressFile := some inactiveDoc,
             historyFile := some
               (((⟨"T", 2, some ((2 : ℤ) -
                 (get_started_at initState).getD 1)⟩ :
                 HistEntry) :: []).take 10) } ∧
    (((⟨"T", 2, some ((2 : ℤ) - (get_started_at initState).getD 1)⟩ :
        HistEntry) :: []).take 10).head?.map (fun e => e.task_name) =
      some "T" ∧
    (((⟨"T", 2, some ((2 : ℤ) - (get_started_at initState).getD 1)⟩ :
        HistEntry) :: []).take 10).length ≤ 10 ∧
    exTwelveHist.map (fun e => e.task_name) =
      ((exTwelve.map Prod.snd).reverse ++
        ([] : List HistEntry).map (fun e => e.task_name)).take 10 ∧
    exTwelveHist.length ≤ 10 :=
  C8_completion_and_history initState [] 1 2 9 "T" "s" (1/2) exTwelve
    ⟨some inactiveDoc, some exTwelveHist⟩ exTwelveHist
    rfl (by decide) rfl rfl

/-- A tracker whose counter has passed its declared total (total 1,
counter 2), as after two `update(1)` calls against `total=1`. -/
def exOverrun : PPState :=
  { disable := false, desc := "T", stepLabel := "1/1", total := some 1,
    unit := "it", leave := true, mininterval := 0, n := 2,
    start_t := 0, last_update_t := 0 }

/-- C9 counterexample: with `total = 1`, counter 2 and elapsed time 2,
`_calculate_eta` returns `-1`, a negative value, and the snapshot
reported by two `update(1)` calls persists `eta_seconds = -1` into the
progress document — so a persisted ETA is not always absent or a
non-negative integer. -/
theorem C9_counterexample :
    calculate_eta exOverrun 2 = some (-1) ∧
    (runCalls [7] 9
      (ppUpdate 2 1 (ppUpdate 1 1
        (ppInit false "T" "1/1" (some 1) 0 0 0).1).1).2 initState).map
      (fun st => st.progressFile.map (fun d => d.eta_seconds)) =
      some (some (some (-1))) ∧
    ¬ (0 : ℤ) ≤ -1 := by
  refine ⟨?_, ?_, by decide⟩
  · norm_num [calculate_eta, exOverrun, ratTrunc, Int.ceil_neg, Int.floor_one]
  · norm_num [runCalls, ppUpdate, ppInit, report_progress, calculate_eta,
      ratTrunc, applyCall, update_progress, initState,
      Int.ceil_neg, Int.floor_one]

/-- C9 (amended): when the total is known and non-zero, the counter
positive and the elapsed time positive, the emitted ETA is the
integer truncation of `(total - counter)/throughput` with
`throughput = counter/elapsed` (equivalently
`(total - counter) * elapsed / counter`); it is non-negative whenever
the counter has not passed the total (but may be negative when it has);
a falsy total (absent or zero), a non-positive counter, or non-positive
elapsed time yields an absent ETA rather than a division error. -/
theorem C9_eta_semantics (s : PPState) (now : ℚ) (tot : ℤ)
    (s2 : PPState) (now2 : ℚ)
    (htot : s.total = some tot) (htot0 : tot ≠ 0)
    (hn : 0 < s.n) (hel : 0 < now - s.start_t)
    (habs : s2.total = none ∨ s2.total = some 0 ∨ s2.n ≤ 0 ∨
      now2 - s2.start_t ≤ 0) :
    calculate_eta s now =
      some (ratTrunc (((tot - s.n : ℤ) : ℚ) * (now - s.start_t) /
        (s.n : ℚ))) ∧
    (s.n ≤ tot →
      (0 : ℤ) ≤ ratTrunc (((tot - s.n : ℤ) : ℚ) * (now - s.start_t) /
        (s.n : ℚ))) ∧
    calculate_eta s2 now2 = none := by
  have hn' : (0 : ℚ) < (s.n : ℚ) := by exact_mod_cast hn
  have hsp : (0 : ℚ) < (s.n : ℚ) / (now - s.start_t) := div_pos hn' hel
  have hif : (if now - s.start_t > 0
      then (s.n : ℚ) / (now - s.start_t) else 0) =
      (s.n : ℚ) / (now - s.start_t) := if_pos hel
  refine ⟨?_, ?_, ?_⟩
  · have hcond : ¬(tot = 0 ∨ s.n ≤ 0) := by
      push_neg
      exact ⟨htot0, hn⟩
    simp [calculate_eta, htot, hcond, sub_pos.mp hel, hsp, div_div_eq_mul_div]
  · intro hle
    have hq : (0 : ℚ) ≤ ((tot - s.n : ℤ) : ℚ) * (now - s.start_t) /
        (s.n : ℚ) := by
      apply div_nonneg _ (le_of_lt hn')
      apply mul_nonneg _ (le_of_lt hel)
      have hs : (0 : ℤ) ≤ tot - s.n := sub_nonneg.mpr hle
      exact_mod_cast hs
    rw [ratTrunc, if_pos hq]
    exact Int.floor_nonneg.mpr hq
  · rcases habs with ht | ht | ht | ht
    · simp [calculate_eta, ht]
    · simp [calculate_eta, ht]
    · cases ht2 : s2.total with
      | none => simp [calculate_eta, ht2]
      | some t => simp [calculate_eta, ht2, ht]
    · cases ht2 : s2.total with
      | none => simp [calculate_eta, ht2]
      | some t => simp [calculate_eta, ht2, not_lt.mpr ht]

/-- A healthy tracker for the C9 witness: total 10, counter 2,
started at instant 0. -/
def exHealthy : PPState :=
  { disable := false, desc := "T", stepLabel := "1/1", total := some 10,
    unit := "it", leave := true, mininterval := 0, n := 2,
    start_t := 0, last_update_t := 0 }

/-- A tracker with no known total for the C9 witness. -/
def exNoTotal : PPState :=
  { disable := false, desc := "T", stepLabel := "1/1", total := none,
    unit := "it", leave := true, mininterval := 0, n := 2,
    start_t := 0, last_update_t := 0 }

/-- C9 witness. -/
theorem C9_eta_semantics_witness :
    calculate_eta exHealthy 4 =
      some (ratTrunc (((10 - exHealthy.n : ℤ) : ℚ) *
        ((4 : ℚ) - exHealthy.start_t) / (exHealthy.n : ℚ))) ∧
    (exHealthy.n ≤ 10 →
      (0 : ℤ) ≤ ratTrunc (((10 - exHealthy.n : ℤ) : ℚ) *
        ((4 : ℚ) - exHealthy.start_t) / (exHealthy.n : ℚ))) ∧
    calculate_eta exNoTotal 1 = none :=
  C9_eta_semantics exHealthy 4 10 exNoTotal 1 rfl (by decide) (by decide)
    (by norm_num [exHealthy]) (Or.inl rfl)

end PyPulse
